/-
Verification of the Guidora API gateway's routing and health-aggregation
behaviour, as a shallow embedding of the JavaScript sources:

  * `src/unnamed/part_001`                         — advanced health-check router
  * `src/backend/services/api-gateway/index.js`    — two gateway server variants
  * `src/backend/services/api-gateway/README.md`   — trailing `config.js` content
    (`CONFIG`, `getServiceMap`, `getServiceUrl`)

JavaScript strings are embedded as Lean `String` (or `List Char` for path
manipulation), objects as structures with `Option` fields for keys that are
present only on some branches, and the outcome of each outbound `fetch` as an
explicit inductive parameter, so that every handler becomes a pure function of
its inputs.
-/
import Mathlib

namespace Guidora

/-! ## Health probe outcomes (part_001, lines 21-53)

The per-service callback performs one `fetch` of `${serviceUrl}/health`.
Its observable outcome is either a settled HTTP response (with `ok` flag,
numeric status and optional `x-response-time` header) or a thrown error
(network failure, or the `AbortController` timeout firing), which the
`catch` block converts into an `error` record.  -/

/-- Outcome of the single `fetch(healthUrl, …)` a probe callback performs:
either an HTTP response arrived (`response.ok`, `response.status`, and the
optional `x-response-time` header), or the fetch threw (timeout abort or
network error) with an error message. -/
inductive FetchOutcome where
  | response (ok : Bool) (status : Nat) (xResponseTime : Option String)
  | failure (message : String)
deriving DecidableEq, Repr

/-- One entry of the `services` array of the aggregate health response
(part_001 lines 37-50): fields absent on a branch are `none`. -/
structure ProbeResult where
  service : String
  url : String
  status : String
  statusCode : Option Nat
  responseTime : Option String
  error : Option String
deriving DecidableEq, Repr

/-- JS `response.headers.get('x-response-time') || 'N/A'` (part_001 line 42):
a missing header (`null`) and the empty string are both falsy, so they fall
back to `"N/A"`. -/
def responseTimeOrNA : Option String → String
  | some s => if s = "" then "N/A" else s
  | none => "N/A"

/-- The probe callback of part_001 lines 22-52 as a function of its fetch
outcome.  On a settled response it reports `"healthy"` iff `response.ok`
(2xx), else `"unhealthy"`; on a thrown error (timeout or network failure)
the `catch` block reports `"error"`. -/
def probe (serviceName serviceUrl : String) : FetchOutcome → ProbeResult
  | .response ok status t =>
      { service := serviceName
        url := serviceUrl
        status := if ok then "healthy" else "unhealthy"
        statusCode := some status
        responseTime := some (responseTimeOrNA t)
        error := none }
  | .failure msg =>
      { service := serviceName
        url := serviceUrl
        status := "error"
        statusCode := none
        responseTime := none
        error := some msg }

/-- The URL the probe callback fetches: `${serviceUrl}/health`
(part_001 line 24). -/
def healthUrl (serviceUrl : String) : String := serviceUrl ++ "/health"

/-- The list of URLs fetched by one `/health/full` invocation: one
`GET ${serviceUrl}/health` per entry of the service map (part_001
lines 21-24). -/
def issuedProbes (services : List (String × String)) : List String :=
  services.map fun p => healthUrl p.2

/-- A settled promise as seen by `Promise.allSettled`: fulfilled with a
probe record, or rejected with an optional reason message. -/
inductive SettledResult where
  | fulfilled (value : ProbeResult)
  | rejected (reason : Option String)
deriving DecidableEq, Repr

/-- The array `Promise.allSettled` resolves with (part_001 lines 21-53).
Each mapped callback wraps its whole body in `try`/`catch` and returns a
record in both branches, so every element settles as `fulfilled` with the
corresponding `probe` record; the outcome of service `i`'s fetch is
`outcome i`. -/
def healthChecks (services : List (String × String))
    (outcome : Nat → FetchOutcome) : List SettledResult :=
  match services with
  | [] => []
  | (n, u) :: rest =>
      .fulfilled (probe n u (outcome 0)) ::
        healthChecks rest (fun i => outcome (i + 1))

/-- The `healthChecks.map` callback of part_001 lines 56-67: a fulfilled
promise contributes its value; a rejected one is replaced by a synthetic
`"error"` entry built from `serviceNames[index]`. -/
def settledToResult (services : List (String × String)) (idx : Nat) :
    SettledResult → ProbeResult
  | .fulfilled v => v
  | .rejected reason =>
      { service := (services.getD idx ("", "")).1
        url := (services.getD idx ("", "")).2
        status := "error"
        statusCode := none
        responseTime := none
        error := some (reason.getD "Unknown error") }

/-- The indexed map of part_001 line 56 (`healthChecks.map((result, index) => …)`). -/
def mapSettled (services : List (String × String)) (idx : Nat) :
    List SettledResult → List ProbeResult
  | [] => []
  | r :: rest => settledToResult services idx r :: mapSettled services (idx + 1) rest

/-- The aggregate `/health/full` response (part_001 lines 73-78). -/
structure AggregateResponse where
  httpStatus : Nat
  status : String
  summary : String
  services : List ProbeResult
deriving DecidableEq, Repr

/-- The whole `/health/full` handler of part_001 lines 14-88 as a function
of the service map and the per-service fetch outcomes: fan out one probe
per service, gather all settled results, count the `"healthy"` ones, and
answer `200`/`"healthy"` iff all are healthy, else `503`/`"degraded"`. -/
def checkAll (services : List (String × String))
    (outcome : Nat → FetchOutcome) : AggregateResponse :=
  let results := mapSettled services 0 (healthChecks services outcome)
  let healthyCount := (results.filter fun r => r.status == "healthy").length
  let totalCount := results.length
  let allHealthy := healthyCount = totalCount
  { httpStatus := if allHealthy then 200 else 503
    status := if allHealthy then "healthy" else "degraded"
    summary := toString healthyCount ++ "/" ++ toString totalCount ++ " services healthy"
    services := results }

/-! ### Basic lemmas about the health-check pipeline -/

/-- Every element `Promise.allSettled` hands back is fulfilled: the probe
callbacks catch their own exceptions. -/
theorem healthChecks_all_fulfilled (services : List (String × String))
    (outcome : Nat → FetchOutcome) :
    ∀ c ∈ healthChecks services outcome, ∃ v, c = SettledResult.fulfilled v := by
  induction services generalizing outcome with
  | nil => intro c hc; cases hc
  | cons p rest ih =>
      intro c hc
      cases hc with
      | head => exact ⟨_, rfl⟩
      | tail _ h => exact ih _ c h

/-- Mapping `settledToResult` over a list of fulfilled promises just strips
the `fulfilled` wrapper: the rejected branch is never taken. -/
theorem mapSettled_fulfilled (services : List (String × String)) (idx : Nat)
    (l : List ProbeResult) :
    mapSettled services idx (l.map SettledResult.fulfilled) = l := by
  induction l generalizing idx with
  | nil => rfl
  | cons r rest ih => simp [mapSettled, settledToResult, ih]

/-- `healthChecks` is the probe list with each element wrapped `fulfilled`. -/
theorem healthChecks_eq_map (services : List (String × String))
    (outcome : Nat → FetchOutcome) :
    ∃ l : List ProbeResult,
      healthChecks services outcome = l.map SettledResult.fulfilled ∧
      mapSettled services 0 (healthChecks services outcome) = l := by
  induction services generalizing outcome with
  | nil => exact ⟨[], rfl, rfl⟩
  | cons p rest ih =>
      obtain ⟨l, hl, _⟩ := ih (fun i => outcome (i + 1))
      refine ⟨probe p.1 p.2 (outcome 0) :: l, ?_, ?_⟩
      · simp [healthChecks, hl]
      · simp [healthChecks, hl, mapSettled, settledToResult, mapSettled_fulfilled]

/-- The `results` array of `checkAll` is exactly the list of probe records,
in registration order. -/
def probeList (services : List (String × String))
    (outcome : Nat → FetchOutcome) : List ProbeResult :=
  match services with
  | [] => []
  | (n, u) :: rest => probe n u (outcome 0) :: probeList rest (fun i => outcome (i + 1))

theorem mapSettled_healthChecks (services : List (String × String))
    (outcome : Nat → FetchOutcome) :
    mapSettled services 0 (healthChecks services outcome) = probeList services outcome := by
  induction services generalizing outcome with
  | nil => rfl
  | cons p rest ih =>
      obtain ⟨l, hl, hmap⟩ := healthChecks_eq_map rest (fun i => outcome (i + 1))
      simp only [healthChecks, probeList, mapSettled, settledToResult, hl,
        mapSettled_fulfilled]
      have hrest : l = probeList rest (fun i => outcome (i + 1)) := by
        rw [← hmap, ih]
      rw [hrest]

theorem probeList_length (services : List (String × String))
    (outcome : Nat → FetchOutcome) :
    (probeList services outcome).length = services.length := by
  induction services generalizing outcome with
  | nil => rfl
  | cons p rest ih => simp [probeList, ih]

/-- Each probe record keeps its service's registered name and base URL. -/
theorem probeList_map_service_url (services : List (String × String))
    (outcome : Nat → FetchOutcome) :
    (probeList services outcome).map (fun r => (r.service, r.url)) = services := by
  induction services generalizing outcome with
  | nil => rfl
  | cons p rest ih =>
      cases h : outcome 0 <;>
        simp [probeList, probe, ih, h]

theorem checkAll_services_eq (services : List (String × String))
    (outcome : Nat → FetchOutcome) :
    (checkAll services outcome).services = probeList services outcome := by
  simp [checkAll, mapSettled_healthChecks]

/-- A filtered list has full length iff every element passes the filter. -/
theorem filter_length_eq_iff {α : Type} (p : α → Bool) (l : List α) :
    (l.filter p).length = l.length ↔ ∀ a ∈ l, p a = true := by
  induction l with
  | nil => simp
  | cons x xs ih =>
      by_cases hx : p x = true
      · simp [List.filter_cons, hx, ih]
      · have hxf : p x = false := by simpa using hx
        have hle := List.length_filter_le p xs
        have hcons : (x :: xs).filter p = xs.filter p := by
          simp [List.filter_cons, hxf]
        rw [hcons, List.length_cons]
        constructor
        · intro h; exfalso; omega
        · intro h; exact absurd (h x (List.mem_cons_self x xs)) hx

/-- The status a probe record carries depends only on the fetch outcome:
`"healthy"` for an `ok` response, `"unhealthy"` for a non-2xx response,
`"error"` for a thrown timeout/network failure. -/
def probeStatus : FetchOutcome → String
  | .response ok _ _ => if ok then "healthy" else "unhealthy"
  | .failure _ => "error"

theorem probe_status_eq (n u : String) (o : FetchOutcome) :
    (probe n u o).status = probeStatus o := by
  cases o <;> rfl

theorem probe_status_cases (n u : String) (o : FetchOutcome) :
    (probe n u o).status = "healthy" ∨ (probe n u o).status = "unhealthy" ∨
      (probe n u o).status = "error" := by
  cases o with
  | response ok s t => cases ok <;> simp [probe]
  | failure m => simp [probe]

theorem probeList_mem (ss : List (String × String)) (f : Nat → FetchOutcome)
    (r : ProbeResult) (hr : r ∈ probeList ss f) :
    ∃ n u o, r = probe n u o := by
  induction ss generalizing f with
  | nil => cases hr
  | cons p rest ih =>
      obtain ⟨n, u⟩ := p
      cases hr with
      | head => exact ⟨n, u, f 0, rfl⟩
      | tail _ h => exact ih (fun i => f (i + 1)) h

theorem probeList_get (ss : List (String × String)) (f : Nat → FetchOutcome)
    (i : Nat) (h1 : i < (probeList ss f).length) (h2 : i < ss.length) :
    (probeList ss f).get ⟨i, h1⟩ =
      probe (ss.get ⟨i, h2⟩).1 (ss.get ⟨i, h2⟩).2 (f i) := by
  induction ss generalizing f i with
  | nil => cases h2
  | cons p rest ih =>
      obtain ⟨n, u⟩ := p
      cases i with
      | zero => rfl
      | succ j =>
          exact ih (fun k => f (k + 1)) j
            (by simpa [probeList] using h1) (Nat.lt_of_succ_lt_succ h2)

/-- Characterisation of the aggregation rule of part_001 lines 69-74:
the aggregate reads `"healthy"` iff every entry of `services` does. -/
theorem checkAll_status_healthy_iff (ss : List (String × String))
    (f : Nat → FetchOutcome) :
    (checkAll ss f).status = "healthy" ↔
      ∀ r ∈ (checkAll ss f).services, r.status = "healthy" := by
  have hiff : (checkAll ss f).status = "healthy" ↔
      ((mapSettled ss 0 (healthChecks ss f)).filter
        fun r => r.status == "healthy").length =
        (mapSettled ss 0 (healthChecks ss f)).length := by
    by_cases h :
        ((mapSettled ss 0 (healthChecks ss f)).filter
          fun r => r.status == "healthy").length =
          (mapSettled ss 0 (healthChecks ss f)).length <;>
      simp [checkAll, h]
  rw [hiff, filter_length_eq_iff]
  constructor
  · intro h r hr
    have := h r hr
    simpa using this
  · intro h r hr
    have := h r hr
    simpa using this

/-- The aggregate status takes no value other than `"healthy"` / `"degraded"`,
and the HTTP code is `200` exactly in the healthy case and `503` otherwise. -/
theorem checkAll_status_dichotomy (ss : List (String × String))
    (f : Nat → FetchOutcome) :
    ((checkAll ss f).status = "healthy" ∨ (checkAll ss f).status = "degraded") ∧
    ((checkAll ss f).httpStatus = 200 ↔ (checkAll ss f).status = "healthy") ∧
    ((checkAll ss f).httpStatus = 503 ↔ (checkAll ss f).status = "degraded") := by
  by_cases h :
      ((mapSettled ss 0 (healthChecks ss f)).filter
        fun r => r.status == "healthy").length =
        (mapSettled ss 0 (healthChecks ss f)).length <;>
    simp [checkAll, h]

/-- If any registered service's probe outcome is non-healthy, the aggregate
is `"degraded"` with HTTP `503`. -/
theorem checkAll_degraded_of_probe (ss : List (String × String))
    (f : Nat → FetchOutcome) (i : Nat) (h : i < ss.length)
    (hne : probeStatus (f i) ≠ "healthy") :
    (checkAll ss f).status = "degraded" ∧ (checkAll ss f).httpStatus = 503 := by
  have hlen : i < (probeList ss f).length := by rw [probeList_length]; exact h
  have hnot : ¬ (checkAll ss f).status = "healthy" := by
    rw [checkAll_status_healthy_iff]
    intro hall
    have hr : (probeList ss f).get ⟨i, hlen⟩ ∈ (checkAll ss f).services := by
      rw [checkAll_services_eq]; exact List.get_mem _ _ _
    have := hall _ hr
    rw [probeList_get ss f i hlen h, probe_status_eq] at this
    exact hne this
  have hd := checkAll_status_dichotomy ss f
  rcases hd.1 with h1 | h1
  · exact absurd h1 hnot
  · exact ⟨h1, hd.2.2.mpr h1⟩

/-! ## Concrete health-check scenarios used by the witnesses -/

/-- The two-service registry of the spec's scenario
(`{users: "http://u:1", ai: "http://a:2"}`). -/
def demoServices : List (String × String) :=
  [("users", "http://u:1"), ("ai", "http://a:2")]

/-- Every probe answers `200 OK`. -/
def demoAllOk : Nat → FetchOutcome := fun _ => .response true 200 none

/-- The first service's probe throws (timeout), the rest answer `200 OK`. -/
def demoOneDown : Nat → FetchOutcome :=
  fun i => if i = 0 then .failure "timeout" else .response true 200 none

/-! ## Claim theorems for the aggregate health checker -/

/-- Claim C1: the aggregate `/health/full` status is `"healthy"` iff every
per-service probe result is `"healthy"` (and otherwise `"degraded"`); the
HTTP status code is `200` exactly in the healthy case and `503` otherwise;
and changing any single probe's outcome to a non-healthy one flips a healthy
aggregate to `"degraded"`. -/
theorem checkAll_aggregate_healthy_iff (ss : List (String × String))
    (f g : Nat → FetchOutcome) (i : Nat) :
    ((checkAll ss f).status = "healthy" ↔
        ∀ r ∈ (checkAll ss f).services, r.status = "healthy") ∧
    ((checkAll ss f).status = "healthy" ∨ (checkAll ss f).status = "degraded") ∧
    ((checkAll ss f).httpStatus = 200 ↔ (checkAll ss f).status = "healthy") ∧
    ((checkAll ss f).httpStatus = 200 ∨ (checkAll ss f).httpStatus = 503) ∧
    ((checkAll ss f).status = "healthy" → i < ss.length →
      (∀ j, j ≠ i → g j = f j) → probeStatus (g i) ≠ "healthy" →
      (checkAll ss g).status = "degraded" ∧ (checkAll ss g).httpStatus = 503) := by
  have hd := checkAll_status_dichotomy ss f
  refine ⟨checkAll_status_healthy_iff ss f, hd.1, hd.2.1, ?_, ?_⟩
  · rcases hd.1 with h1 | h1
    · exact Or.inl (hd.2.1.mpr h1)
    · exact Or.inr (hd.2.2.mpr h1)
  · intro _ hi _ hne
    exact checkAll_degraded_of_probe ss g i hi hne

theorem checkAll_aggregate_healthy_iff_witness :
    (checkAll demoServices demoOneDown).status = "degraded" ∧
    (checkAll demoServices demoOneDown).httpStatus = 503 :=
  (checkAll_aggregate_healthy_iff demoServices demoAllOk demoOneDown 0).2.2.2.2
    (by decide) (by decide)
    (fun j hj => by simp [demoOneDown, demoAllOk, hj]) (by decide)

/-- Claim C2: one `/health/full` invocation over N registered services issues
exactly N probes — one `GET` to each service's `baseUrl + "/health"` — and the
`services` array of the response has exactly N entries, one per registered
service in order (carrying its name and base URL), whatever the outcomes:
the per-service breakdown is never collapsed. -/
theorem checkAll_probe_count (ss : List (String × String))
    (f : Nat → FetchOutcome) :
    (issuedProbes ss).length = ss.length ∧
    issuedProbes ss = ss.map (fun p => p.2 ++ "/health") ∧
    (checkAll ss f).services.length = ss.length ∧
    (checkAll ss f).services.map (fun r => (r.service, r.url)) = ss := by
  refine ⟨by simp [issuedProbes], rfl, ?_, ?_⟩
  · rw [checkAll_services_eq, probeList_length]
  · rw [checkAll_services_eq, probeList_map_service_url]

/-- Claim C9: every entry of the `services` array has status `"healthy"`,
`"unhealthy"` or `"error"`, and — because each probe callback catches its own
exceptions and returns a record on both branches — every element
`Promise.allSettled` yields is fulfilled, so the `rejected` fallback of the
result-mapping is never exercised. -/
theorem checkAll_status_taxonomy (ss : List (String × String))
    (f : Nat → FetchOutcome) :
    (∀ c ∈ healthChecks ss f, ∃ v, c = SettledResult.fulfilled v) ∧
    (∀ r ∈ (checkAll ss f).services,
      r.status = "healthy" ∨ r.status = "unhealthy" ∨ r.status = "error") := by
  refine ⟨healthChecks_all_fulfilled ss f, ?_⟩
  intro r hr
  rw [checkAll_services_eq] at hr
  obtain ⟨n, u, o, rfl⟩ := probeList_mem ss f r hr
  exact probe_status_cases n u o

theorem checkAll_status_taxonomy_witness :
    (probe "users" "http://u:1" (FetchOutcome.failure "timeout")).status = "healthy" ∨
    (probe "users" "http://u:1" (FetchOutcome.failure "timeout")).status = "unhealthy" ∨
    (probe "users" "http://u:1" (FetchOutcome.failure "timeout")).status = "error" :=
  (checkAll_status_taxonomy demoServices demoOneDown).2 _ (by decide)

/-! ## Service registry (`config.js`, the trailing content of
`src/backend/services/api-gateway/README.md`, lines 222-277)

Object literals are embedded as association lists in insertion order
(`Object.keys` enumerates string keys of an object literal in that order). -/

/-- `CONFIG.services.local` (config.js lines 229-240). -/
def localServices : List (String × String) :=
  [("users", "http://user-service:5001"),
   ("ai-guidance", "http://ai-guidance:5002"),
   ("career-atlas", "http://career-atlas:5003"),
   ("portfolio", "http://portfolio:5004"),
   ("gamification", "http://gamification:5005"),
   ("simulation", "http://simulation:5006"),
   ("context", "http://context-service:5007"),
   ("interview", "http://mock-interview:5008"),
   ("notifications", "http://notifications:5009"),
   ("news", "http://news-feeds:5010")]

/-- `CONFIG.services.production` (config.js lines 241-252). -/
def productionServices : List (String × String) :=
  [("users", "https://guidora-users-746485305795.us-central1.run.app"),
   ("ai-guidance", "https://guidora-ai-746485305795.us-central1.run.app"),
   ("career-atlas", "https://guidora-career-746485305795.us-central1.run.app"),
   ("portfolio", "https://guidora-portfolio-746485305795.us-central1.run.app"),
   ("gamification", "https://guidora-gamify-746485305795.us-central1.run.app"),
   ("simulation", "https://guidora-simulation-746485305795.us-central1.run.app"),
   ("context", "https://guidora-context-746485305795.us-central1.run.app"),
   ("interview", "https://guidora-interview-746485305795.us-central1.run.app"),
   ("notifications", "https://guidora-notifications-746485305795.us-central1.run.app"),
   ("news", "https://guidora-news-746485305795.us-central1.run.app")]

/-- `getServiceMap()` (config.js lines 258-260): selects the production or
local URL set according to the `NODE_ENV === 'production'` flag. -/
def getServiceMap (isProduction : Bool) : List (String × String) :=
  if isProduction then productionServices else localServices

/-- A JavaScript value as `getServiceUrl`'s callers can observe it:
a string, `null`, or `undefined`. -/
inductive JsVal where
  | vstr (s : String)
  | vnull
  | vundefined
deriving DecidableEq, Repr

/-- `getServiceUrl(serviceName)` (config.js lines 262-269): looks the name up
in the active service map.  `!serviceMap[serviceName]` holds when the key is
absent (the access yields falsy `undefined`) or when the stored value is
itself falsy (the empty string), in which case the function logs a warning
and returns `null`; otherwise it returns the stored URL. -/
def getServiceUrl (isProduction : Bool) (serviceName : String) : JsVal :=
  match (getServiceMap isProduction).lookup serviceName with
  | some url => if url = "" then JsVal.vnull else JsVal.vstr url
  | none => JsVal.vnull

/-! ### Registry lemmas -/

theorem lookup_isSome_iff_mem (l : List (String × String)) (s : String) :
    (l.lookup s).isSome ↔ s ∈ l.map Prod.fst := by
  induction l with
  | nil => simp [List.lookup]
  | cons p rest ih =>
      obtain ⟨k, v⟩ := p
      by_cases h : s = k
      · simp [List.lookup, h]
      · have hb : (s == k) = false := beq_false_of_ne h
        simp [List.lookup, hb, ih, h]

theorem lookup_ne_empty (l : List (String × String)) (s url : String)
    (hne : ∀ p ∈ l, p.2 ≠ "") (h : l.lookup s = some url) : url ≠ "" := by
  induction l with
  | nil => cases h
  | cons p rest ih =>
      obtain ⟨k, v⟩ := p
      by_cases hk : s = k
      · have : v = url := by simpa [List.lookup, hk] using h
        exact this ▸ hne (k, v) (List.mem_cons_self _ _)
      · have hb : (s == k) = false := beq_false_of_ne hk
        have hrest : rest.lookup s = some url := by
          simpa [List.lookup, hb] using h
        exact ih (fun p hp => hne p (List.mem_cons_of_mem _ hp)) hrest

/-- `getServiceUrl` answers `null` exactly for names outside the active map
(no registered URL is the empty string). -/
theorem getServiceUrl_vnull_iff (b : Bool) (s : String)
    (hne : ∀ p ∈ getServiceMap b, p.2 ≠ "") :
    getServiceUrl b s = JsVal.vnull ↔ s ∉ (getServiceMap b).map Prod.fst := by
  rw [← lookup_isSome_iff_mem]
  unfold getServiceUrl
  cases hl : (getServiceMap b).lookup s with
  | none => simp
  | some url =>
      have hu : url ≠ "" := lookup_ne_empty _ s url hne hl
      simp [hu]

/-! ### Claim theorems for the registry -/

/-- Claim C7 counterexample: `getServiceUrl` applied to a name absent from
the registry (`"unknown"`) returns JavaScript `null`, which is a different
caller-visible value from `undefined`, in both environments. -/
theorem getServiceUrl_unknown_is_null_not_undefined :
    getServiceUrl false "unknown" = JsVal.vnull ∧
    getServiceUrl true "unknown" = JsVal.vnull ∧
    getServiceUrl false "unknown" ≠ JsVal.vundefined := by decide

/-- Claim C7 (amended): for every service name absent from the active
registry, `getServiceUrl` returns the caller-visible value `null` — not
`undefined`, and not an exception (the embedding is a total function). -/
theorem getServiceUrl_unknown_returns_null (b : Bool) (s : String)
    (h : s ∉ (getServiceMap b).map Prod.fst) :
    getServiceUrl b s = JsVal.vnull ∧ getServiceUrl b s ≠ JsVal.vundefined := by
  have hv := (getServiceUrl_vnull_iff b s (by cases b <;> decide)).mpr h
  exact ⟨hv, by rw [hv]; decide⟩

theorem getServiceUrl_unknown_returns_null_witness :
    getServiceUrl false "unknown" = JsVal.vnull ∧
    getServiceUrl false "unknown" ≠ JsVal.vundefined :=
  getServiceUrl_unknown_returns_null false "unknown" (by decide)

/-- Claim C10: the local and production maps register exactly the same ten
logical service names, so `getServiceUrl` succeeds (returns a URL rather
than `null`) under the local flag iff it succeeds under the production
flag — switching the environment changes only the URLs. -/
theorem serviceMap_same_names :
    localServices.map Prod.fst =
      ["users", "ai-guidance", "career-atlas", "portfolio", "gamification",
       "simulation", "context", "interview", "notifications", "news"] ∧
    productionServices.map Prod.fst = localServices.map Prod.fst ∧
    ∀ s : String,
      (getServiceUrl false s = JsVal.vnull ↔ getServiceUrl true s = JsVal.vnull) := by
  refine ⟨by decide, by decide, ?_⟩
  intro s
  rw [getServiceUrl_vnull_iff false s (by decide),
    getServiceUrl_vnull_iff true s (by decide)]
  have hkeys : (getServiceMap false).map Prod.fst = (getServiceMap true).map Prod.fst := by
    decide
  rw [hkeys]

/-! ## Reverse proxy routing (`index.js` lines 46-98)

Request paths are embedded as `List Char` (the character sequence of the JS
string).  Each `app.use(mountPath, createProxyMiddleware({target, changeOrigin,
pathRewrite}))` statement contributes one rule.  Express dispatches a request
to the first mounted middleware whose mount path is a prefix of the request
path ending at the path's end or at a `/` boundary.  `http-proxy-middleware`
then restores `req.url` from `req.originalUrl` before proxying and applies the
rule's `pathRewrite` — the anchored pattern `^mountPath` replaced once by the
empty string — so the forwarded path is the original path with the mount
prefix dropped. -/

abbrev Path := List Char

/-- One `app.use(mountPath, createProxyMiddleware({target, …, pathRewrite:
{ "^mountPath": "" }}))` registration. -/
structure ProxyRule where
  mountPath : Path
  target : String
deriving DecidableEq, Repr

/-- The nine proxy registrations of index.js lines 46-98, in source order. -/
def proxyRules : List ProxyRule :=
  [⟨"/api/users".toList, "http://user-service:5001"⟩,
   ⟨"/api/ai".toList, "http://ai-guidance:5002"⟩,
   ⟨"/api/career".toList, "http://career-atlas:5003"⟩,
   ⟨"/api/portfolio".toList, "http://portfolio-service:5004"⟩,
   ⟨"/api/game".toList, "http://gamification-service:5005"⟩,
   ⟨"/api/simulation".toList, "http://simulation-service:5006"⟩,
   ⟨"/api/interview".toList, "http://mock-interview:5008"⟩,
   ⟨"/api/notifications".toList, "http://notification-service:5009"⟩,
   ⟨"/api/news".toList, "http://news-feeds-service:5010"⟩]

/-- Express mount matching: middleware mounted at `pre` receives the request
iff `pre` is a prefix of the path that ends at the path's end or at a `/`
segment boundary. -/
def mountMatches (pre path : Path) : Bool :=
  pre.isPrefixOf path &&
    (path.length == pre.length || path.getD pre.length ' ' == '/')

/-- The rule's `pathRewrite` applied by http-proxy-middleware to the restored
original URL: the anchored pattern `^pre` is replaced once by `""` — the
prefix is dropped iff the path starts with it, and nothing else changes. -/
def rewritePath (pre path : Path) : Path :=
  if pre.isPrefixOf path then path.drop pre.length else path

/-- The express dispatch over the registered proxy rules: the first rule
whose mount path matches receives the request, and forwards it to its target
with the rewritten path; with no matching rule the request is not proxied. -/
def gatewayRoute : List ProxyRule → Path → Option (String × Path)
  | [], _ => none
  | r :: rest, path =>
      if mountMatches r.mountPath path then
        some (r.target, rewritePath r.mountPath path)
      else gatewayRoute rest path

/-! ### Path lemmas -/

theorem isPrefixOf_iff_take (p y : Path) :
    p.isPrefixOf y = true ↔ y.take p.length = p := by
  induction p generalizing y with
  | nil => simp [List.isPrefixOf]
  | cons a ps ih =>
      cases y with
      | nil => simp [List.isPrefixOf]
      | cons b ys =>
          constructor
          · intro h
            have h1 : a = b ∧ ps.isPrefixOf ys = true := by
              simpa [List.isPrefixOf] using h
            have h2 := (ih ys).mp h1.2
            simp [h1.1, h2]
          · intro h
            have hb : b = a ∧ ys.take ps.length = ps := by
              simpa using h
            have h2 := (ih ys).mpr hb.2
            simp [List.isPrefixOf, hb.1, h2]

theorem isPrefixOf_append_self (q y : Path) :
    q.isPrefixOf (q ++ y) = true := by
  rw [isPrefixOf_iff_take, List.take_left]

/-- Two paths that differ at a shared index `k` rule out one being mounted
over any extension of the other. -/
theorem isPrefixOf_false_of_diverge (p q x : Path) (k : Nat)
    (hkp : k < p.length) (hkq : k < q.length)
    (hne : p.getD k ' ' ≠ q.getD k ' ') :
    p.isPrefixOf (q ++ x) = false := by
  induction k generalizing p q with
  | zero =>
      cases p with
      | nil => cases hkp
      | cons a ps =>
          cases q with
          | nil => cases hkq
          | cons b qs =>
              have hab : a ≠ b := by simpa [List.getD] using hne
              simp [List.isPrefixOf, hab]
  | succ j ih =>
      cases p with
      | nil => cases hkp
      | cons a ps =>
          cases q with
          | nil => cases hkq
          | cons b qs =>
              by_cases hab : a = b
              · have hrec := ih ps qs
                  (by simpa using hkp) (by simpa using hkq)
                  (by simpa [List.getD] using hne)
                simp [List.isPrefixOf, hab, hrec]
              · simp [List.isPrefixOf, hab]

theorem mountMatches_false_of_diverge (p q x : Path) (k : Nat)
    (hkp : k < p.length) (hkq : k < q.length)
    (hne : p.getD k ' ' ≠ q.getD k ' ') :
    mountMatches p (q ++ x) = false := by
  unfold mountMatches
  rw [isPrefixOf_false_of_diverge p q x k hkp hkq hne]
  rfl

theorem mountMatches_self (q x : Path) :
    mountMatches q (q ++ '/' :: x) = true := by
  unfold mountMatches
  rw [isPrefixOf_append_self]
  have h2 : (q ++ '/' :: x).getD q.length ' ' = '/' := by
    rw [List.getD_eq_getElem?_getD, List.getElem?_append_right (Nat.le_refl _)]
    simp
  rw [h2]
  simp

theorem rewritePath_append (q x : Path) :
    rewritePath q (q ++ '/' :: x) = '/' :: x := by
  unfold rewritePath
  rw [isPrefixOf_append_self]
  simp [List.drop_left]

/-- If every other rule's mount path diverges from `r.mountPath` at some
shared character index, then a request for `r.mountPath ++ "/" ++ x` is
dispatched to `r` and forwarded with exactly the mount prefix stripped. -/
theorem gatewayRoute_first_match (rules : List ProxyRule) (r : ProxyRule)
    (x : Path) (hr : r ∈ rules)
    (hdiv : ∀ r2 ∈ rules, r2 ≠ r →
      ∃ k, k < r2.mountPath.length ∧ k < r.mountPath.length ∧
        r2.mountPath.getD k ' ' ≠ r.mountPath.getD k ' ') :
    gatewayRoute rules (r.mountPath ++ '/' :: x) = some (r.target, '/' :: x) := by
  induction rules with
  | nil => cases hr
  | cons a rest ih =>
      by_cases har : a = r
      · subst har
        simp [gatewayRoute, mountMatches_self, rewritePath_append]
      · obtain ⟨k, h1, h2, h3⟩ := hdiv a (List.mem_cons_self _ _) har
        have hm := mountMatches_false_of_diverge a.mountPath r.mountPath
          ('/' :: x) k h1 h2 h3
        have hr2 : r ∈ rest := by
          cases hr with
          | head => exact absurd rfl har
          | tail _ h => exact h
        simp only [gatewayRoute, hm, Bool.false_eq_true, if_false]
        exact ih hr2 (fun r2 hm2 => hdiv r2 (List.mem_cons_of_mem _ hm2))

/-- Claim C4: for every registered proxy rule with mount prefix P and target
service T, an inbound request with path `P + "/x"` is forwarded to T with
path `"/x"`: the prefix is stripped exactly once from the start of the path,
with the remainder (including any further occurrence of P) left untouched. -/
theorem gateway_strips_mount_once (r : ProxyRule) (hr : r ∈ proxyRules)
    (x : Path) :
    gatewayRoute proxyRules (r.mountPath ++ '/' :: x) = some (r.target, '/' :: x) := by
  refine gatewayRoute_first_match proxyRules r x hr ?_
  intro r2 h2 hne
  simp only [proxyRules, List.mem_cons, List.not_mem_nil, or_false] at h2 hr
  rcases hr with rfl | rfl | rfl | rfl | rfl | rfl | rfl | rfl | rfl <;>
    rcases h2 with rfl | rfl | rfl | rfl | rfl | rfl | rfl | rfl | rfl <;>
      first
        | exact absurd rfl hne
        | exact ⟨5, by decide, by decide, by decide⟩
        | exact ⟨6, by decide, by decide, by decide⟩

theorem gateway_strips_mount_once_witness :
    gatewayRoute proxyRules ("/api/users".toList ++ '/' :: "profile/42".toList) =
      some ("http://user-service:5001", '/' :: "profile/42".toList) :=
  gateway_strips_mount_once ⟨"/api/users".toList, "http://user-service:5001"⟩
    (by decide) "profile/42".toList

/-! ## Registry-driven proxy routing

`config.js` (`getServiceUrl`) and the health router of part_001 are written
for a registry-driven gateway server that dispatches `/api/<service>/<rest>`
through the Service Registry (`<service>` is the first path segment after
`/api/`, per spec §6).  That server file itself is not among the sources —
only its configuration module and its health router are — so its request
handling is modelled from the specification below. -/

/-- Outcome of one proxied attempt against the upstream service. -/
inductive Upstream where
  | responds (status : Nat) (body : String)
  | timeout
  | connectionFailure (message : String)
deriving DecidableEq, Repr

/-- A gateway response: the HTTP status, the JSON body fields the spec names
(`none` when absent), the relayed upstream body when the request was proxied
successfully, and the upstream URL actually contacted (`none` when no
outbound call is made). -/
structure GatewayResponse where
  httpStatus : Nat
  errorField : Option String
  serviceField : Option String
  hasMessage : Bool
  hasTimestamp : Bool
  relayedBody : Option String
  forwardedTo : Option String
deriving DecidableEq, Repr

/-- `CONFIG.proxyTimeout` (config.js line 255):
`parseInt(process.env.PROXY_TIMEOUT) || 60000`.  A missing or unparsable
variable (`NaN`) and the falsy parse result `0` all fall back to 60000 ms. -/
def proxyTimeoutMs : Option Nat → Nat
  | some n => if n = 0 then 60000 else n
  | none => 60000

/-- Modelled from the spec: the request handler of the registry-driven
gateway server, which is missing from the sources (only its configuration
`config.js` and its health router, part_001, are present).  Per spec §4.2 and
§6: the target is resolved with `getServiceUrl`; an unconfigured target is
answered immediately with `503 { error: "Service Unavailable", message }` and
no forwarding is attempted; a configured target is forwarded to exactly once
(only attempt `0` of `upstream` is ever consulted — no retry), relaying the
upstream response on success, and answering
`502 { error: "Bad Gateway", service, message, timestamp }` when that single
attempt times out or fails to connect. -/
def routeApiRequest (isProduction : Bool) (serviceName : String) (rest : Path)
    (upstream : Nat → Upstream) : GatewayResponse :=
  match getServiceUrl isProduction serviceName with
  | JsVal.vstr url =>
      match upstream 0 with
      | .responds status body =>
          { httpStatus := status, errorField := none, serviceField := none,
            hasMessage := false, hasTimestamp := false,
            relayedBody := some body,
            forwardedTo := some (url ++ String.mk rest) }
      | .timeout =>
          { httpStatus := 502, errorField := some "Bad Gateway",
            serviceField := some serviceName, hasMessage := true,
            hasTimestamp := true, relayedBody := none,
            forwardedTo := some (url ++ String.mk rest) }
      | .connectionFailure _ =>
          { httpStatus := 502, errorField := some "Bad Gateway",
            serviceField := some serviceName, hasMessage := true,
            hasTimestamp := true, relayedBody := none,
            forwardedTo := some (url ++ String.mk rest) }
  | _ =>
      { httpStatus := 503, errorField := some "Service Unavailable",
        serviceField := none, hasMessage := true, hasTimestamp := false,
        relayedBody := none, forwardedTo := none }

/-- The modelled handler consults only the first upstream attempt: no retry. -/
theorem routeApiRequest_no_retry (b : Bool) (name : String) (rest : Path)
    (u u2 : Nat → Upstream) (h : u2 0 = u 0) :
    routeApiRequest b name rest u2 = routeApiRequest b name rest u := by
  unfold routeApiRequest
  rw [h]

/-- Claim C5 (spec-modelled): a request whose path prefix names no configured
target service is answered immediately with
`503 { error: "Service Unavailable", message }`, and no outbound call is made
for it. -/
theorem gateway_unconfigured_503 (b : Bool) (name : String) (rest : Path)
    (u : Nat → Upstream) (h : getServiceUrl b name = JsVal.vnull) :
    (routeApiRequest b name rest u).httpStatus = 503 ∧
    (routeApiRequest b name rest u).errorField = some "Service Unavailable" ∧
    (routeApiRequest b name rest u).hasMessage = true ∧
    (routeApiRequest b name rest u).forwardedTo = none := by
  unfold routeApiRequest
  rw [h]
  exact ⟨rfl, rfl, rfl, rfl⟩

theorem gateway_unconfigured_503_witness :
    (routeApiRequest false "unknown" "/x".toList (fun _ => Upstream.timeout)).httpStatus = 503 ∧
    (routeApiRequest false "unknown" "/x".toList (fun _ => Upstream.timeout)).errorField =
      some "Service Unavailable" ∧
    (routeApiRequest false "unknown" "/x".toList (fun _ => Upstream.timeout)).hasMessage = true ∧
    (routeApiRequest false "unknown" "/x".toList (fun _ => Upstream.timeout)).forwardedTo = none :=
  gateway_unconfigured_503 false "unknown" "/x".toList (fun _ => Upstream.timeout)
    (by decide)

/-- Claim C6 (spec-modelled): when the upstream of a proxied request times out
or its connection fails, the caller receives
`502 { error: "Bad Gateway", service, message, timestamp }`; the proxy
timeout is a single configurable duration defaulting to 60000 ms; and the
single failed attempt is surfaced as is — the handler never consults a
second attempt. -/
theorem gateway_upstream_failure_502 (b : Bool) (name url : String)
    (rest : Path) (u : Nat → Upstream)
    (hres : getServiceUrl b name = JsVal.vstr url)
    (hfail : u 0 = Upstream.timeout ∨ ∃ m, u 0 = Upstream.connectionFailure m) :
    (routeApiRequest b name rest u).httpStatus = 502 ∧
    (routeApiRequest b name rest u).errorField = some "Bad Gateway" ∧
    (routeApiRequest b name rest u).serviceField = some name ∧
    (routeApiRequest b name rest u).hasMessage = true ∧
    (routeApiRequest b name rest u).hasTimestamp = true ∧
    (∀ u2 : Nat → Upstream, u2 0 = u 0 →
      routeApiRequest b name rest u2 = routeApiRequest b name rest u) ∧
    proxyTimeoutMs none = 60000 ∧
    (∀ n : Nat, n ≠ 0 → proxyTimeoutMs (some n) = n) := by
  have hkey : routeApiRequest b name rest u =
      { httpStatus := 502, errorField := some "Bad Gateway",
        serviceField := some name, hasMessage := true, hasTimestamp := true,
        relayedBody := none, forwardedTo := some (url ++ String.mk rest) } := by
    unfold routeApiRequest
    rw [hres]
    rcases hfail with ht | ⟨m, hc⟩
    · rw [ht]
    · rw [hc]
  refine ⟨by rw [hkey], by rw [hkey], by rw [hkey], by rw [hkey], by rw [hkey],
    fun u2 h2 => routeApiRequest_no_retry b name rest u u2 h2, rfl, ?_⟩
  intro n hn
  simp [proxyTimeoutMs, hn]

theorem gateway_upstream_failure_502_witness :
    (routeApiRequest false "users" "/x".toList (fun _ => Upstream.timeout)).httpStatus = 502 ∧
    (routeApiRequest false "users" "/x".toList (fun _ => Upstream.timeout)).errorField =
      some "Bad Gateway" ∧
    (routeApiRequest false "users" "/x".toList (fun _ => Upstream.timeout)).serviceField =
      some "users" ∧
    (routeApiRequest false "users" "/x".toList (fun _ => Upstream.timeout)).hasMessage = true ∧
    (routeApiRequest false "users" "/x".toList (fun _ => Upstream.timeout)).hasTimestamp = true ∧
    (∀ u2 : Nat → Upstream, u2 0 = Upstream.timeout →
      routeApiRequest false "users" "/x".toList u2 =
        routeApiRequest false "users" "/x".toList (fun _ => Upstream.timeout)) ∧
    proxyTimeoutMs none = 60000 ∧
    (∀ n : Nat, n ≠ 0 → proxyTimeoutMs (some n) = n) :=
  gateway_upstream_failure_502 false "users" "http://user-service:5001"
    "/x".toList (fun _ => Upstream.timeout) (by decide) (Or.inl rfl)

/-! ## Liveness health endpoints (part_001 lines 93-99 and index.js lines 17-33)

Both handlers are straight-line `res.json(...)` calls: the embedding records
the response status, the body fields, and the list of outbound probe URLs
fetched while handling — empty, since neither handler performs any network
call. -/

/-- Shape of a `GET /health` liveness response. -/
structure HealthResponse where
  httpStatus : Nat
  status : String
  service : Option String
  staticServices : Option (List (String × String))
  hasTimestamp : Bool
  outboundProbes : List String
deriving DecidableEq, Repr

/-- The advanced health router's quick check (part_001 lines 93-99):
`res.json({ status: 'healthy', service: 'api-gateway', timestamp })`,
status defaulting to 200, with no outbound call. -/
def advancedQuickHealth : HealthResponse :=
  { httpStatus := 200, status := "healthy", service := some "api-gateway",
    staticServices := none, hasTimestamp := true, outboundProbes := [] }

/-- The legacy express gateway's `GET /health` (index.js lines 17-33):
`200 { status: 'healthy', services: {…static table…}, timestamp }` — no
`service` field, a hard-coded `services` object, and no outbound call. -/
def legacyGatewayHealth : HealthResponse :=
  { httpStatus := 200, status := "healthy", service := none,
    staticServices := some
      [("user-service", "http://user-service:5001"),
       ("ai-guidance", "http://ai-guidance:5002"),
       ("career-atlas", "http://career-atlas:5003"),
       ("portfolio", "http://portfolio-service:5004"),
       ("gamification", "http://gamification-service:5005"),
       ("simulation", "http://simulation-service:5006"),
       ("mock-interview", "http://mock-interview:5008"),
       ("notification", "http://notification-service:5009"),
       ("news-feeds", "http://news-feeds-service:5010")],
    hasTimestamp := true, outboundProbes := [] }

/-- Claim C8 counterexample: the legacy gateway's `GET /health` handler
(index.js lines 17-33) returns a body with no `service: "api-gateway"`
field — it carries a static `services` table instead — so not every
`GET /health` body consists of exactly status, service and timestamp. -/
theorem legacyGatewayHealth_body_shape :
    legacyGatewayHealth.service ≠ some "api-gateway" ∧
    legacyGatewayHealth.service = none ∧
    legacyGatewayHealth.staticServices.isSome = true := by decide

/-- Claim C8 (amended): every `GET /health` handler answers `200` with
status `"healthy"` and a timestamp and probes no dependency (no outbound
call); the advanced health router's body additionally carries
`service: "api-gateway"`, while the legacy gateway's instead embeds its
static services table. -/
theorem health_endpoints_liveness :
    advancedQuickHealth.httpStatus = 200 ∧
    advancedQuickHealth.status = "healthy" ∧
    advancedQuickHealth.service = some "api-gateway" ∧
    advancedQuickHealth.hasTimestamp = true ∧
    advancedQuickHealth.outboundProbes = [] ∧
    legacyGatewayHealth.httpStatus = 200 ∧
    legacyGatewayHealth.status = "healthy" ∧
    legacyGatewayHealth.hasTimestamp = true ∧
    legacyGatewayHealth.outboundProbes = [] := by decide

end Guidora
